import Mathlib

/-!
Verification of `mod_gemini_live.c` — a bidirectional PCM audio relay between
a telephony session and an external TCP socket.

The definitions below are a shallow embedding of the C source:
bytes are modelled as `Nat`, byte sequences as `List Nat`, timestamps
(microseconds) as `Nat`, and the mutable `gemini_ctx_t` fields that the
claims are about as an explicit record passed through pure step functions.
Each function carries a reference to the source lines it embeds.
-/

/-- `GEMINI_INPUT_RATE` — `mod_gemini_live.c:19` (send to sidecar at 16 kHz). -/
def GEMINI_INPUT_RATE : Nat := 16000

/-- `GEMINI_OUTPUT_RATE` — `mod_gemini_live.c:20` (receive from sidecar at 24 kHz). -/
def GEMINI_OUTPUT_RATE : Nat := 24000

/-- `GEMINI_QUEUE_MAX_SIZE` — `mod_gemini_live.c:27`: 90 seconds at 48 kHz, 16-bit. -/
def GEMINI_QUEUE_MAX_SIZE : Nat := 48000 * 2 * 90

/-- `GEMINI_DISCARD_DURATION_US` — `mod_gemini_live.c:31`: 500 ms discard window. -/
def GEMINI_DISCARD_DURATION_US : Nat := 500000

/-- The fields of `gemini_ctx_t` (`mod_gemini_live.c:37-76`) that the relay's
behaviour depends on: the running flag, whether `ctx->sock` is non-NULL,
the audio queue contents (`switch_buffer_t` modelled as the byte list it
holds, head first), the flush flag, the discard deadline (`0` = not armed,
as in the C code), and the session codec bookkeeping. -/
structure GeminiCtx where
  running : Bool
  sockOpen : Bool
  queue : List Nat
  flush_flag : Bool
  discard_until : Nat
  session_rate : Nat
  read_ptime : Nat
  session_frame_bytes : Nat
  deriving DecidableEq, Repr

/-- The most recent `n` bytes of `l` (the suffix of length `min n l.length`).
Specification-side notion used to state the overflow-drop property. -/
def lastN (n : Nat) (l : List Nat) : List Nat := l.drop (l.length - n)

/-- Queue write with overflow drop — `mod_gemini_live.c:150-157`:
if `inuse + bytes_out > GEMINI_QUEUE_MAX_SIZE` the excess is tossed from the
head (`switch_buffer_toss`), then the chunk is appended
(`switch_buffer_write`). -/
def queueWrite (q chunk : List Nat) : List Nat :=
  if GEMINI_QUEUE_MAX_SIZE < q.length + chunk.length then
    (q.drop (q.length + chunk.length - GEMINI_QUEUE_MAX_SIZE)) ++ chunk
  else
    q ++ chunk

theorem lastN_length (n : Nat) (l : List Nat) : (lastN n l).length = min n l.length := by
  simp only [lastN, List.length_drop]
  omega

theorem lastN_nil (n : Nat) : lastN n [] = [] := by
  simp [lastN]

/-- A bounded head-dropping append, for an arbitrary capacity `C`, preserves
the "queue = most recent `C` bytes of everything written" invariant. -/
theorem boundedAppend_lastN (C : Nat) (acc w : List Nat) (hw : w.length ≤ C) :
    (if C < (lastN C acc).length + w.length then
        (lastN C acc).drop ((lastN C acc).length + w.length - C) ++ w
      else (lastN C acc) ++ w)
      = lastN C (acc ++ w) := by
  have hqlen : (lastN C acc).length = acc.length - (acc.length - C) := by
    simp [lastN]
  rw [hqlen]
  unfold lastN
  rw [List.length_append]
  split
  · next hover =>
    rw [List.drop_drop]
    have hidx : (acc.length - C) + (acc.length - (acc.length - C) + w.length - C)
        = acc.length + w.length - C := by omega
    rw [hidx]
    rw [List.drop_append_of_le_length (by omega)]
  · next hno =>
    rcases le_or_lt acc.length C with hle | hgt
    · have h1 : acc.length - C = 0 := by omega
      have h2 : acc.length + w.length - C = 0 := by omega
      simp [h1, h2]
    · have hw0 : w.length = 0 := by omega
      have hwnil : w = [] := List.eq_nil_of_length_eq_zero hw0
      subst hwnil
      simp

/-- One overflow-dropping write preserves the "queue = most recent capacity
bytes of everything written" invariant. -/
theorem queueWrite_lastN (acc w : List Nat) (hw : w.length ≤ GEMINI_QUEUE_MAX_SIZE) :
    queueWrite (lastN GEMINI_QUEUE_MAX_SIZE acc) w = lastN GEMINI_QUEUE_MAX_SIZE (acc ++ w) := by
  unfold queueWrite
  exact boundedAppend_lastN GEMINI_QUEUE_MAX_SIZE acc w hw

theorem foldl_queueWrite_lastN (ws : List (List Nat))
    (hw : ∀ w ∈ ws, w.length ≤ GEMINI_QUEUE_MAX_SIZE) :
    ∀ acc : List Nat,
      List.foldl queueWrite (lastN GEMINI_QUEUE_MAX_SIZE acc) ws
        = lastN GEMINI_QUEUE_MAX_SIZE (acc ++ ws.flatten) := by
  induction ws with
  | nil =>
    intro acc
    rw [List.foldl_nil, List.flatten_nil, List.append_nil]
  | cons w ws ih =>
    intro acc
    rw [List.foldl_cons, List.flatten_cons]
    rw [queueWrite_lastN acc w (hw w (by simp))]
    rw [ih (fun x hx => hw x (by simp [hx])) (acc ++ w)]
    rw [List.append_assoc]

/-- The `FlushRequested → Discarding` transition — `mod_gemini_live.c:127-132`
and `mod_gemini_live.c:167-172`: clear the queue (`switch_buffer_zero`),
clear the flush flag, arm `discard_until = now + GEMINI_DISCARD_DURATION_US`. -/
def flushTransition (now : Nat) (ctx : GeminiCtx) : GeminiCtx :=
  { ctx with queue := [], flush_flag := false,
             discard_until := now + GEMINI_DISCARD_DURATION_US }

/-- The receive-path flush/discard/enqueue block of the socket thread —
`mod_gemini_live.c:124-158`.  Returns the new context and `true` when the C
code executed `continue` (flush observed, or chunk silently discarded inside
the discard window), i.e. when the drain sub-loop is skipped. -/
def processChunk (now : Nat) (chunk : List Nat) (ctx : GeminiCtx) : GeminiCtx × Bool :=
  if ctx.flush_flag then
    (flushTransition now ctx, true)
  else if 0 < ctx.discard_until ∧ now < ctx.discard_until then
    (ctx, true)
  else
    let c1 := if 0 < ctx.discard_until then { ctx with discard_until := 0 } else ctx
    ({ c1 with queue := queueWrite c1.queue chunk }, false)

/-- Outcome of one iteration of the drain/pace sub-loop body
(`mod_gemini_live.c:161-204`). -/
inductive DrainAction where
  | interrupted (ctx : GeminiCtx)
  | wait (ctx : GeminiCtx)
  | wrote (frame : List Nat) (ctx : GeminiCtx)
  deriving DecidableEq, Repr

/-- One iteration of the drain/pace sub-loop — `mod_gemini_live.c:164-189`:
flush check (clear queue, clear flag, arm deadline, break); then, under one
mutex acquisition, the size check against `session_frame_bytes` and — when
enough data is queued — the `switch_buffer_read` of exactly one frame from
the head. -/
def drainStep (now : Nat) (ctx : GeminiCtx) : DrainAction :=
  if ctx.flush_flag then
    .interrupted (flushTransition now ctx)
  else if ctx.queue.length < ctx.session_frame_bytes then
    .wait ctx
  else
    .wrote (ctx.queue.take ctx.session_frame_bytes)
      { ctx with queue := ctx.queue.drop ctx.session_frame_bytes }

/-- The drain/pace sub-loop — `mod_gemini_live.c:161-204`.  `writeOks` is the
trace of `switch_core_session_write_frame` outcomes (one per written frame;
the loop also stops when this trace is exhausted), `channelReady` the value of
`switch_channel_ready` during this outer iteration. -/
def drainLoop (now : Nat) (channelReady : Bool) (writeOks : List Bool)
    (ctx : GeminiCtx) : GeminiCtx :=
  match writeOks with
  | [] => ctx
  | wOk :: rest =>
    if channelReady && ctx.running then
      match drainStep now ctx with
      | .interrupted c => c
      | .wait c => c
      | .wrote _ c => if wOk then drainLoop now channelReady rest c else c
    else ctx

/-- The `SWITCH_ABC_TYPE_WRITE_REPLACE` branch of `gemini_media_callback` —
`mod_gemini_live.c:305-323`: under the mutex, if the flush flag is set, zero
the queue and clear the flag.  (It does not touch `discard_until`.) -/
def writeReplaceIntercept (ctx : GeminiCtx) : GeminiCtx :=
  if ctx.flush_flag then
    { ctx with queue := [], flush_flag := false }
  else ctx

/-- A captured read frame as seen by the media bug: `data = none` models a
NULL `frame->data` pointer, otherwise the byte list (with `datalen` its
length). -/
structure MicFrame where
  data : Option (List Nat)
  deriving DecidableEq, Repr

/-- The `SWITCH_ABC_TYPE_READ_REPLACE` branch of `gemini_media_callback` —
`mod_gemini_live.c:237-303`: if the frame is non-NULL with non-NULL data and
`datalen > 0`, and `ctx->sock` is set and `ctx->running`, resample
(`rr` models the read resampler, identity when absent) and send the bytes to
the socket (returned as `some bytes`); otherwise do nothing.  The context is
returned unchanged in all cases (this branch never touches the queue, the
flush flag or the discard deadline). -/
def readReplaceIntercept (rr : List Nat → List Nat) (frame : Option MicFrame)
    (ctx : GeminiCtx) : GeminiCtx × Option (List Nat) :=
  match frame with
  | none => (ctx, none)
  | some f =>
    match f.data with
    | none => (ctx, none)
    | some d =>
      if 0 < d.length ∧ ctx.sockOpen = true ∧ ctx.running = true then
        (ctx, some (rr d))
      else (ctx, none)

/-- One full body of the socket thread's receive loop after a successful
receive — `mod_gemini_live.c:111-205`: resample the chunk (`wr` models the
write resampler, identity when absent), run the flush/discard/enqueue block,
and unless that block executed `continue`, run the drain/pace sub-loop. -/
def processIteration (wr : List Nat → List Nat) (now : Nat) (chunk : List Nat)
    (channelReady : Bool) (writeOks : List Bool) (ctx : GeminiCtx) : GeminiCtx :=
  let bytesOut := wr chunk
  match processChunk now bytesOut ctx with
  | (c, true) => c
  | (c, false) => drainLoop now channelReady writeOks c

/-- The external events of one iteration of the socket thread's receive
loop: `extClear` — the CLOSE intercept cleared `ctx->running` before this
iteration's loop-condition check; `channelReady` — `switch_channel_ready`;
`recvOk`/`chunk` — outcome of `switch_socket_recv` (`recvOk = false` models
a non-SUCCESS status, `chunk = []` a zero-byte receive); `now` — the
`switch_time_now` value during the iteration; `writeOks` — the
`switch_core_session_write_frame` outcomes for the drain sub-loop. -/
structure IterInput where
  extClear : Bool
  channelReady : Bool
  recvOk : Bool
  chunk : List Nat
  now : Nat
  writeOks : List Bool
  deriving Repr

/-- The socket thread's receive loop — `mod_gemini_live.c:98-206`:
`while (ctx->running && switch_channel_ready(...))`, blocking receive,
break on error or zero bytes, otherwise process the chunk. -/
def socketThreadLoop (wr : List Nat → List Nat) :
    List IterInput → GeminiCtx → GeminiCtx
  | [], ctx => ctx
  | it :: rest, ctx =>
    let ctx := if it.extClear then { ctx with running := false } else ctx
    if ctx.running && it.channelReady then
      if !it.recvOk || it.chunk.isEmpty then ctx
      else
        socketThreadLoop wr rest
          (processIteration wr it.now it.chunk it.channelReady it.writeOks ctx)
    else ctx

/-- The whole socket thread — `mod_gemini_live.c:88-214`: run the receive
loop, then unconditionally `ctx->running = 0` before returning. -/
def socketThreadRun (wr : List Nat → List Nat) (inputs : List IterInput)
    (ctx : GeminiCtx) : GeminiCtx :=
  let c := socketThreadLoop wr inputs ctx
  { c with running := false }

/-- The outcomes of the host primitives that `gemini_live_start`
(`mod_gemini_live.c:368-590`) calls, in program order.  `dataEmpty` models
`zstr(data)`, `argc` the result of `switch_split`, `port` the `atoi` result,
`sessionRate` the codec's `actual_samples_per_second`; the `..Ok` fields are
the success/failure of the corresponding `switch_*` call (consulted only when
the call is reached, and the resampler ones only when that resampler is
needed, i.e. when the session rate differs from the fixed rate). -/
structure StartEnv where
  dataEmpty : Bool
  argc : Nat
  port : Int
  readImplOk : Bool
  sessionRate : Nat
  ptimeMs : Nat
  mutexOk : Bool
  queueOk : Bool
  readResamplerOk : Bool
  writeResamplerOk : Bool
  sockaddrOk : Bool
  socketOk : Bool
  connectOk : Bool
  codecOk : Bool
  threadOk : Bool
  bugOk : Bool
  deriving DecidableEq, Repr

/-- Which allocations `gemini_live_start` holds when it returns, plus the
running flag and whether the context was registered on the channel
(`switch_channel_set_private`, `mod_gemini_live.c:566`). -/
structure StartResult where
  queueAlloc : Bool
  readResamplerAlloc : Bool
  writeResamplerAlloc : Bool
  sockAlloc : Bool
  codecAlloc : Bool
  threadStarted : Bool
  running : Bool
  registered : Bool
  deriving DecidableEq, Repr

/-- The state before any allocation. -/
def startInit : StartResult :=
  { queueAlloc := false, readResamplerAlloc := false, writeResamplerAlloc := false,
    sockAlloc := false, codecAlloc := false, threadStarted := false,
    running := false, registered := false }

/-- The `error:` label of `gemini_live_start` — `mod_gemini_live.c:573-590`:
close the socket, destroy both resamplers, destroy the write codec, destroy
the audio queue. -/
def errorCleanup (r : StartResult) : StartResult :=
  { r with sockAlloc := false, readResamplerAlloc := false,
           writeResamplerAlloc := false, codecAlloc := false, queueAlloc := false }

/-- `gemini_live_start` — `mod_gemini_live.c:368-590`, step by step:
argument parsing and port check (`c:384-407`), codec lookup (`c:410`),
mutex (`c:436`), audio queue (`c:443`), read resampler when
`session_rate != GEMINI_INPUT_RATE` (`c:450-466`, plain `return` on failure),
write resampler when `session_rate != GEMINI_OUTPUT_RATE` (`c:468-487`,
destroys the read resampler then plain `return` on failure), address
resolution, socket creation, connect, write codec, thread, media bug
(each `goto error` on failure, `c:490-563`), and finally the channel-private
registration (`c:566`).  The `startR1`..`startR6` records are the
intermediate allocation states reached after each successful step. -/
def startR1 : StartResult := { startInit with queueAlloc := true }

def startR2 (e : StartEnv) : StartResult :=
  { startR1 with readResamplerAlloc := decide (e.sessionRate ≠ GEMINI_INPUT_RATE) }

def startR3 (e : StartEnv) : StartResult :=
  { startR2 e with writeResamplerAlloc := decide (e.sessionRate ≠ GEMINI_OUTPUT_RATE) }

def startR4 (e : StartEnv) : StartResult := { startR3 e with sockAlloc := true }

def startR5 (e : StartEnv) : StartResult :=
  { startR4 e with codecAlloc := true, running := true }

def startR6 (e : StartEnv) : StartResult := { startR5 e with threadStarted := true }

def geminiLiveStart (e : StartEnv) : StartResult :=
  if e.dataEmpty then startInit
  else if e.argc ≠ 2 then startInit
  else if e.port ≤ 0 ∨ 65535 < e.port then startInit
  else if !e.readImplOk then startInit
  else if !e.mutexOk then startInit
  else if !e.queueOk then startInit
  else if e.sessionRate ≠ GEMINI_INPUT_RATE ∧ !e.readResamplerOk then startR1
  else if e.sessionRate ≠ GEMINI_OUTPUT_RATE ∧ !e.writeResamplerOk then
    { startR2 e with readResamplerAlloc := false }
  else if !e.sockaddrOk then errorCleanup (startR3 e)
  else if !e.socketOk then errorCleanup (startR3 e)
  else if !e.connectOk then errorCleanup (startR4 e)
  else if !e.codecOk then errorCleanup (startR4 e)
  else if !e.threadOk then errorCleanup { startR5 e with running := false }
  else if !e.bugOk then errorCleanup { startR6 e with running := false }
  else { startR6 e with registered := true }

/-- All steps of the start sequence succeed. -/
def startAllOk (e : StartEnv) : Prop :=
  e.dataEmpty = false ∧ e.argc = 2 ∧ 0 < e.port ∧ e.port ≤ 65535 ∧
  e.readImplOk = true ∧ e.mutexOk = true ∧ e.queueOk = true ∧
  (e.sessionRate ≠ GEMINI_INPUT_RATE → e.readResamplerOk = true) ∧
  (e.sessionRate ≠ GEMINI_OUTPUT_RATE → e.writeResamplerOk = true) ∧
  e.sockaddrOk = true ∧ e.socketOk = true ∧ e.connectOk = true ∧
  e.codecOk = true ∧ e.threadOk = true ∧ e.bugOk = true

instance (e : StartEnv) : Decidable (startAllOk e) := by
  unfold startAllOk
  infer_instance

/-- Leading-whitespace predicate of the API commands' trim —
`mod_gemini_live.c:622` / `c:691`. -/
def isLeadWs (c : Char) : Bool := c == ' ' || c == '\t'

/-- Trailing-whitespace predicate of the API commands' trim —
`mod_gemini_live.c:625` / `c:694`. -/
def isTailWs (c : Char) : Bool := c == ' ' || c == '\t' || c == '\n' || c == '\r'

/-- The whitespace trim of `uuid_gemini_flush` / `uuid_gemini_stop` —
`mod_gemini_live.c:620-628` / `c:689-697`: skip leading spaces/tabs, then
null out trailing whitespace, but never past the first remaining character
(the C loop guard is `end > uuid`). -/
def trimUuid (cmd : List Char) : List Char :=
  match cmd.dropWhile isLeadWs with
  | [] => []
  | c :: rest => c :: (rest.reverse.dropWhile isTailWs).reverse

/-- Replies written to the API stream by `uuid_gemini_flush` /
`uuid_gemini_stop` (`mod_gemini_live.c:609-655` / `c:678-726`). -/
inductive ApiReply where
  | usage
  | allocFailed
  | sessionNotFound (uuid : List Char)
  | notActive (uuid : List Char)
  | ok
  deriving DecidableEq, Repr

/-- The process-wide state the two API commands observe: which session uuids
`switch_core_session_locate` can find, the per-channel `GEMINI_PRIVATE`
registrations (uuid → relay context), and a count of how many times the
relay teardown (media-bug removal triggering the CLOSE intercept's
resource frees) has run. -/
structure ApiState where
  sessions : List (List Char)
  ctxs : List (List Char × GeminiCtx)
  teardowns : Nat
  deriving DecidableEq, Repr

/-- Setting `ctx->flush_flag = 1` on the context registered for `uuid` —
`mod_gemini_live.c:648-650`. -/
def setFlushFlagOn (uuid : List Char) (ctxs : List (List Char × GeminiCtx)) :
    List (List Char × GeminiCtx) :=
  ctxs.map (fun p => if p.1 == uuid then (p.1, { p.2 with flush_flag := true }) else p)

/-- `uuid_gemini_flush` — `mod_gemini_live.c:600-660`: usage check
(`zstr(cmd)`), trim, session lookup ("Session not found"), channel-private
lookup ("Gemini not active"), then set the flush flag under the mutex. -/
def uuidGeminiFlush (st : ApiState) (cmd : List Char) : ApiState × ApiReply :=
  if cmd.isEmpty then (st, .usage)
  else
    let uuid := trimUuid cmd
    if st.sessions.contains uuid then
      match st.ctxs.lookup uuid with
      | some _ => ({ st with ctxs := setFlushFlagOn uuid st.ctxs }, .ok)
      | none => (st, .notActive uuid)
    else (st, .sessionNotFound uuid)

/-- `uuid_gemini_stop` — `mod_gemini_live.c:669-731`: usage check, trim,
session lookup ("Session not found"), channel-private lookup ("Gemini not
active"); on success remove the media bug (running the CLOSE teardown once)
and clear the channel-private registration. -/
def uuidGeminiStop (st : ApiState) (cmd : List Char) : ApiState × ApiReply :=
  if cmd.isEmpty then (st, .usage)
  else
    let uuid := trimUuid cmd
    if st.sessions.contains uuid then
      match st.ctxs.lookup uuid with
      | some _ =>
        ({ st with ctxs := st.ctxs.filter (fun p => !(p.1 == uuid)),
                   teardowns := st.teardowns + 1 },
         .ok)
      | none => (st, .notActive uuid)
    else (st, .sessionNotFound uuid)

/-- Frame-size computation — `mod_gemini_live.c:427`:
`(session_rate / 1000) * read_ptime * sizeof(int16_t)`. -/
def sessionFrameBytes (rate ptimeMs : Nat) : Nat := rate / 1000 * ptimeMs * 2

/-- Frame-size at the fixed uplink rate — `mod_gemini_live.c:428`. -/
def geminiInFrameBytes (ptimeMs : Nat) : Nat := GEMINI_INPUT_RATE / 1000 * ptimeMs * 2

/-- Frame-size at the fixed downlink rate — `mod_gemini_live.c:429`. -/
def geminiOutFrameBytes (ptimeMs : Nat) : Nat := GEMINI_OUTPUT_RATE / 1000 * ptimeMs * 2

theorem queueWrite_no_overflow (q w : List Nat)
    (h : q.length + w.length ≤ GEMINI_QUEUE_MAX_SIZE) : queueWrite q w = q ++ w := by
  unfold queueWrite
  rw [if_neg (by omega)]

/-- C2: every queue write first drops exactly the excess bytes from the head,
so (for chunks of at most the capacity, as every resampled receive chunk is)
after every write the queue equals the most-recent-capacity-bytes suffix of
the concatenation of all bytes written so far, its size never exceeds the
capacity, and once the cumulative byte count reaches the capacity the size
equals the capacity exactly. -/
theorem c2_queue_overflow_drop (ws : List (List Nat))
    (hw : ∀ w ∈ ws, w.length ≤ GEMINI_QUEUE_MAX_SIZE) :
    List.foldl queueWrite [] ws = lastN GEMINI_QUEUE_MAX_SIZE ws.flatten ∧
    (List.foldl queueWrite [] ws).length ≤ GEMINI_QUEUE_MAX_SIZE ∧
    (GEMINI_QUEUE_MAX_SIZE ≤ ws.flatten.length →
      (List.foldl queueWrite [] ws).length = GEMINI_QUEUE_MAX_SIZE) := by
  have h := foldl_queueWrite_lastN ws hw []
  rw [lastN_nil, List.nil_append] at h
  refine ⟨h, ?_, ?_⟩
  · rw [h, lastN_length]; omega
  · intro hge; rw [h, lastN_length]; omega

theorem c2_queue_overflow_drop_witness :
    List.foldl queueWrite [] [[1, 2], [3]] = lastN GEMINI_QUEUE_MAX_SIZE [[1, 2], [3]].flatten ∧
    (List.foldl queueWrite [] [[1, 2], [3]]).length ≤ GEMINI_QUEUE_MAX_SIZE ∧
    (GEMINI_QUEUE_MAX_SIZE ≤ ([[1, 2], [3]] : List (List Nat)).flatten.length →
      (List.foldl queueWrite [] [[1, 2], [3]]).length = GEMINI_QUEUE_MAX_SIZE) :=
  c2_queue_overflow_drop [[1, 2], [3]] (by decide)

def c1Ctx : GeminiCtx :=
  { running := true, sockOpen := true, queue := [1, 2], flush_flag := true,
    discard_until := 0, session_rate := 8000, read_ptime := 20,
    session_frame_bytes := 320 }

/-- C1 counterexample: with the flush flag set (state `FlushRequested`) and
no deadline armed, the write-side interception callback clears the queue and
the flag but leaves `discard_until = 0`: it does not arm a discard deadline,
so it does not perform the full `FlushRequested → Discarding` transition the
claim ascribes to all three observation points. -/
theorem c1_counterexample :
    c1Ctx.flush_flag = true ∧
    (writeReplaceIntercept c1Ctx).flush_flag = false ∧
    (writeReplaceIntercept c1Ctx).queue = [] ∧
    (writeReplaceIntercept c1Ctx).discard_until = 0 ∧
    0 < GEMINI_DISCARD_DURATION_US := by decide

/-- C1 (amended): when the flush flag is set, the socket thread's receive
loop and its drain sub-loop each perform the full
`FlushRequested → Discarding` transition — clear the queue, clear the flag,
arm `discard_until = now + GEMINI_DISCARD_DURATION_US` — while the
write-side interception callback clears the queue and the flag but leaves
the discard deadline unchanged (it never arms one). -/
theorem c1_flush_observers (now : Nat) (chunk : List Nat) (ctx : GeminiCtx)
    (hflag : ctx.flush_flag = true) :
    processChunk now chunk ctx = (flushTransition now ctx, true) ∧
    drainStep now ctx = .interrupted (flushTransition now ctx) ∧
    (flushTransition now ctx).queue = [] ∧
    (flushTransition now ctx).flush_flag = false ∧
    (flushTransition now ctx).discard_until = now + GEMINI_DISCARD_DURATION_US ∧
    writeReplaceIntercept ctx = { ctx with queue := [], flush_flag := false } := by
  unfold processChunk drainStep writeReplaceIntercept flushTransition
  rw [hflag]
  simp

theorem c1_flush_observers_witness :
    processChunk 1000 [5] c1Ctx = (flushTransition 1000 c1Ctx, true) ∧
    drainStep 1000 c1Ctx = .interrupted (flushTransition 1000 c1Ctx) ∧
    (flushTransition 1000 c1Ctx).queue = [] ∧
    (flushTransition 1000 c1Ctx).flush_flag = false ∧
    (flushTransition 1000 c1Ctx).discard_until = 1000 + GEMINI_DISCARD_DURATION_US ∧
    writeReplaceIntercept c1Ctx = { c1Ctx with queue := [], flush_flag := false } :=
  c1_flush_observers 1000 [5] c1Ctx (by decide)

/-- C3: while a discard deadline is armed (state `Discarding`: flag already
consumed), a chunk arriving strictly before the deadline is dropped with no
queue write and no other state change; a chunk arriving at or past the
deadline clears the deadline and is enqueued normally. -/
theorem c3_discard_window (now : Nat) (chunk : List Nat) (ctx : GeminiCtx)
    (hflag : ctx.flush_flag = false) (harmed : 0 < ctx.discard_until) :
    (now < ctx.discard_until → processChunk now chunk ctx = (ctx, true)) ∧
    (ctx.discard_until ≤ now →
      processChunk now chunk ctx
        = ({ ctx with discard_until := 0, queue := queueWrite ctx.queue chunk }, false)) := by
  unfold processChunk
  rw [hflag]
  constructor
  · intro hlt
    simp [harmed, hlt]
  · intro hge
    have hnlt : ¬ now < ctx.discard_until := by omega
    simp [harmed, hnlt]

def c3Ctx : GeminiCtx :=
  { running := true, sockOpen := true, queue := [1, 2], flush_flag := false,
    discard_until := 10, session_rate := 8000, read_ptime := 20,
    session_frame_bytes := 320 }

theorem c3_discard_window_witness :
    (5 < c3Ctx.discard_until → processChunk 5 [9] c3Ctx = (c3Ctx, true)) ∧
    (c3Ctx.discard_until ≤ 5 →
      processChunk 5 [9] c3Ctx
        = ({ c3Ctx with discard_until := 0, queue := queueWrite c3Ctx.queue [9] }, false)) :=
  c3_discard_window 5 [9] c3Ctx (by decide) (by decide)

/-- C4: in the drain sub-loop the size check and the frame-sized read happen
in one critical section (one `drainStep`): whenever the queue holds at least
one session frame of bytes (and no flush is pending), the read succeeds,
returns exactly the frame-sized head prefix and removes exactly it, in FIFO
order — in particular writing `A` then `B` into an empty queue and reading
`len(A)` bytes yields exactly `A`, leaving `B`. -/
theorem c4_fifo_read (now : Nat) (ctx : GeminiCtx)
    (hflag : ctx.flush_flag = false)
    (hsize : ctx.session_frame_bytes ≤ ctx.queue.length)
    (A B : List Nat) (hAB : A.length + B.length ≤ GEMINI_QUEUE_MAX_SIZE) :
    drainStep now ctx
      = .wrote (ctx.queue.take ctx.session_frame_bytes)
          { ctx with queue := ctx.queue.drop ctx.session_frame_bytes } ∧
    ctx.queue.take ctx.session_frame_bytes ++ ctx.queue.drop ctx.session_frame_bytes
      = ctx.queue ∧
    (ctx.queue.take ctx.session_frame_bytes).length = ctx.session_frame_bytes ∧
    drainStep now { ctx with queue := queueWrite (queueWrite [] A) B,
                             session_frame_bytes := A.length }
      = .wrote A { ctx with queue := B, session_frame_bytes := A.length } := by
  have hA : queueWrite [] A = A := by
    rw [queueWrite_no_overflow [] A (by simp; omega)]
    exact List.nil_append A
  have hB : queueWrite A B = A ++ B := queueWrite_no_overflow A B hAB
  refine ⟨?_, List.take_append_drop _ _, ?_, ?_⟩
  · unfold drainStep
    rw [hflag]
    simp [Nat.not_lt.mpr hsize]
  · rw [List.length_take]
    omega
  · unfold drainStep
    rw [hA, hB]
    simp only [hflag, Bool.false_eq_true, if_false]
    rw [if_neg (by simp only [List.length_append]; omega)]
    rw [List.take_left, List.drop_left]

def c4Ctx : GeminiCtx :=
  { running := true, sockOpen := true, queue := [1, 2, 3, 4], flush_flag := false,
    discard_until := 0, session_rate := 8000, read_ptime := 20,
    session_frame_bytes := 2 }

theorem c4_fifo_read_witness :
    drainStep 0 c4Ctx
      = .wrote (c4Ctx.queue.take c4Ctx.session_frame_bytes)
          { c4Ctx with queue := c4Ctx.queue.drop c4Ctx.session_frame_bytes } ∧
    c4Ctx.queue.take c4Ctx.session_frame_bytes ++ c4Ctx.queue.drop c4Ctx.session_frame_bytes
      = c4Ctx.queue ∧
    (c4Ctx.queue.take c4Ctx.session_frame_bytes).length = c4Ctx.session_frame_bytes ∧
    drainStep 0 { c4Ctx with queue := queueWrite (queueWrite [] [7, 8]) [9],
                             session_frame_bytes := ([7, 8] : List Nat).length }
      = .wrote [7, 8] { c4Ctx with queue := [9],
                                   session_frame_bytes := ([7, 8] : List Nat).length } :=
  c4_fifo_read 0 c4Ctx (by decide) (by decide) [7, 8] [9] (by decide)

/-- C7: in the socket thread's receive loop, a receive returning an error
status or zero bytes always terminates the loop (the rest of the input trace
is never consumed and the state is unchanged apart from an external clear of
the running flag), and the thread sets `running = false` before returning on
every exit path. -/
theorem c7_thread_termination (wr : List Nat → List Nat) (inputs : List IterInput)
    (ctx : GeminiCtx) (it : IterInput) (rest : List IterInput) (c : GeminiCtx)
    (herr : it.recvOk = false ∨ it.chunk = []) :
    (socketThreadRun wr inputs ctx).running = false ∧
    socketThreadLoop wr (it :: rest) c
      = (if it.extClear then { c with running := false } else c) := by
  constructor
  · rfl
  · show (let c' := if it.extClear then { c with running := false } else c
          if c'.running && it.channelReady then
            if !it.recvOk || it.chunk.isEmpty then c'
            else socketThreadLoop wr rest
              (processIteration wr it.now it.chunk it.channelReady it.writeOks c')
          else c')
        = (if it.extClear then { c with running := false } else c)
    have hbreak : (!it.recvOk || it.chunk.isEmpty) = true := by
      rcases herr with h | h
      · rw [h]; rfl
      · rw [h]; simp
    simp only [hbreak, if_true]
    split <;> rw [ite_self]

def c7Input : IterInput :=
  { extClear := false, channelReady := true, recvOk := false, chunk := [1],
    now := 0, writeOks := [] }

theorem c7_thread_termination_witness :
    (socketThreadRun id [] c1Ctx).running = false ∧
    socketThreadLoop id [c7Input] c3Ctx
      = (if c7Input.extClear then { c3Ctx with running := false } else c3Ctx) :=
  c7_thread_termination id [] c1Ctx c7Input [] c3Ctx (Or.inl (by decide))

/-- C8: the derived frame byte sizes are `(rate/1000) * ptime * 2` for the
session, uplink (16 kHz) and downlink (24 kHz) rates, hence always exact
multiples of the 2-byte sample width; at a session rate of 8000 Hz with a
20 ms frame period the pacer's drain step dequeues exactly 320 bytes
(160 two-byte samples) per frame. -/
theorem c8_frame_sizes (r p : Nat) (_hr : 1000 ∣ r) (now : Nat) (ctx : GeminiCtx)
    (hflag : ctx.flush_flag = false)
    (hfb : ctx.session_frame_bytes = sessionFrameBytes 8000 20)
    (hlen : sessionFrameBytes 8000 20 ≤ ctx.queue.length) :
    sessionFrameBytes r p = r / 1000 * p * 2 ∧
    geminiInFrameBytes p = GEMINI_INPUT_RATE / 1000 * p * 2 ∧
    geminiOutFrameBytes p = GEMINI_OUTPUT_RATE / 1000 * p * 2 ∧
    2 ∣ sessionFrameBytes r p ∧
    2 ∣ geminiInFrameBytes p ∧
    2 ∣ geminiOutFrameBytes p ∧
    sessionFrameBytes 8000 20 = 320 ∧
    drainStep now ctx
      = .wrote (ctx.queue.take 320) { ctx with queue := ctx.queue.drop 320 } ∧
    (ctx.queue.take 320).length = 320 ∧
    (ctx.queue.take 320).length / 2 = 160 := by
  have h320 : sessionFrameBytes 8000 20 = 320 := by decide
  rw [h320] at hfb hlen
  refine ⟨rfl, rfl, rfl, ?_, ?_, ?_, h320, ?_, ?_, ?_⟩
  · exact ⟨r / 1000 * p, by unfold sessionFrameBytes; ring⟩
  · exact ⟨GEMINI_INPUT_RATE / 1000 * p, by unfold geminiInFrameBytes; ring⟩
  · exact ⟨GEMINI_OUTPUT_RATE / 1000 * p, by unfold geminiOutFrameBytes; ring⟩
  · unfold drainStep
    rw [hflag, hfb]
    simp [Nat.not_lt.mpr hlen]
  · rw [List.length_take]; omega
  · rw [List.length_take]; omega

def c8Ctx : GeminiCtx :=
  { running := true, sockOpen := true, queue := List.replicate 400 0,
    flush_flag := false, discard_until := 0, session_rate := 8000,
    read_ptime := 20, session_frame_bytes := sessionFrameBytes 8000 20 }

set_option maxRecDepth 4000

theorem c8_frame_sizes_witness :
    sessionFrameBytes 8000 20 = 8000 / 1000 * 20 * 2 ∧
    geminiInFrameBytes 20 = GEMINI_INPUT_RATE / 1000 * 20 * 2 ∧
    geminiOutFrameBytes 20 = GEMINI_OUTPUT_RATE / 1000 * 20 * 2 ∧
    2 ∣ sessionFrameBytes 8000 20 ∧
    2 ∣ geminiInFrameBytes 20 ∧
    2 ∣ geminiOutFrameBytes 20 ∧
    sessionFrameBytes 8000 20 = 320 ∧
    drainStep 0 c8Ctx
      = .wrote (c8Ctx.queue.take 320) { c8Ctx with queue := c8Ctx.queue.drop 320 } ∧
    (c8Ctx.queue.take 320).length = 320 ∧
    (c8Ctx.queue.take 320).length / 2 = 160 :=
  c8_frame_sizes 8000 20 (by decide) 0 c8Ctx (by decide) (by decide) (by decide)

/-- C10: whenever the uplink (read-replace) intercept runs with a NULL
frame, a NULL or empty frame payload, no socket handle, or the running flag
clear, it sends nothing on the socket and returns the relay context
unchanged (queue, flush flag and discard deadline included). -/
theorem c10_uplink_noop (rr : List Nat → List Nat) (frame : Option MicFrame)
    (ctx : GeminiCtx)
    (h : frame = none ∨ frame = some { data := none } ∨
         frame = some { data := some [] } ∨
         ctx.sockOpen = false ∨ ctx.running = false) :
    readReplaceIntercept rr frame ctx = (ctx, none) := by
  rcases frame with _ | ⟨_ | d⟩
  · rfl
  · rfl
  · have hcond : ¬ (0 < d.length ∧ ctx.sockOpen = true ∧ ctx.running = true) := by
      rcases h with h | h | h | h | h
      · exact absurd h (by simp)
      · simp at h
      · simp only [Option.some.injEq, MicFrame.mk.injEq] at h
        rintro ⟨hd, _, _⟩
        rw [h] at hd
        exact absurd hd (by simp)
      · rintro ⟨_, hs, _⟩
        rw [h] at hs
        exact absurd hs (by simp)
      · rintro ⟨_, _, hr⟩
        rw [h] at hr
        exact absurd hr (by simp)
    show (if 0 < d.length ∧ ctx.sockOpen = true ∧ ctx.running = true
          then (ctx, some (rr d)) else (ctx, none)) = (ctx, none)
    rw [if_neg hcond]

theorem c10_uplink_noop_witness :
    readReplaceIntercept id (some { data := some [1, 2] })
      { c8Ctx with running := false } = ({ c8Ctx with running := false }, none) :=
  c10_uplink_noop id (some { data := some [1, 2] }) { c8Ctx with running := false }
    (Or.inr (Or.inr (Or.inr (Or.inr (by decide)))))

theorem lookup_filter_self (u : List Char) (l : List (List Char × GeminiCtx)) :
    (l.filter (fun p => !(p.1 == u))).lookup u = none := by
  induction l with
  | nil => rfl
  | cons p l ih =>
    rw [List.filter_cons]
    by_cases h : p.1 = u
    · simp only [h, beq_self_eq_true, Bool.not_true, Bool.false_eq_true, if_false]
      exact ih
    · have hb : (p.1 == u) = false := beq_eq_false_iff_ne.mpr h
      simp only [hb, Bool.not_false, if_true]
      rcases p with ⟨k, v⟩
      rw [List.lookup_cons]
      have hb2 : (u == k) = false := beq_eq_false_iff_ne.mpr (fun he => h he.symm)
      rw [hb2]
      exact ih

/-- C6: a flush or stop whose (trimmed) call identifier does not resolve to
a session returns the "Session not found" error and changes no state; one
that resolves to a session with no registered relay context returns the
"Gemini not active" error and changes no state; and a second stop right
after a successful stop returns "Gemini not active" without changing state
— in particular the teardown (resource freeing) runs exactly once, never
twice. -/
theorem c6_lookup_errors (st : ApiState) (cmd : List Char) (hne : cmd.isEmpty = false) :
    (st.sessions.contains (trimUuid cmd) = false →
      uuidGeminiFlush st cmd = (st, .sessionNotFound (trimUuid cmd)) ∧
      uuidGeminiStop st cmd = (st, .sessionNotFound (trimUuid cmd))) ∧
    (st.sessions.contains (trimUuid cmd) = true →
      st.ctxs.lookup (trimUuid cmd) = none →
      uuidGeminiFlush st cmd = (st, .notActive (trimUuid cmd)) ∧
      uuidGeminiStop st cmd = (st, .notActive (trimUuid cmd))) ∧
    (st.sessions.contains (trimUuid cmd) = true →
      ∀ c, st.ctxs.lookup (trimUuid cmd) = some c →
      uuidGeminiStop st cmd
        = ({ st with ctxs := st.ctxs.filter (fun p => !(p.1 == trimUuid cmd)),
                     teardowns := st.teardowns + 1 }, .ok) ∧
      uuidGeminiStop (uuidGeminiStop st cmd).1 cmd
        = ((uuidGeminiStop st cmd).1, .notActive (trimUuid cmd))) := by
  refine ⟨?_, ?_, ?_⟩
  · intro hnf
    constructor
    · unfold uuidGeminiFlush
      simp only [hne, Bool.false_eq_true, if_false, hnf]
    · unfold uuidGeminiStop
      simp only [hne, Bool.false_eq_true, if_false, hnf]
  · intro hs hnone
    constructor
    · unfold uuidGeminiFlush
      simp only [hne, Bool.false_eq_true, if_false, hs, if_true, hnone]
    · unfold uuidGeminiStop
      simp only [hne, Bool.false_eq_true, if_false, hs, if_true, hnone]
  · intro hs c hc
    have h1 : uuidGeminiStop st cmd
        = ({ st with ctxs := st.ctxs.filter (fun p => !(p.1 == trimUuid cmd)),
                     teardowns := st.teardowns + 1 }, .ok) := by
      unfold uuidGeminiStop
      simp only [hne, Bool.false_eq_true, if_false, hs, if_true, hc]
    refine ⟨h1, ?_⟩
    rw [h1]
    unfold uuidGeminiStop
    simp only [hne, Bool.false_eq_true, if_false, hs, if_true,
               lookup_filter_self]

def c6Ctx : GeminiCtx :=
  { running := true, sockOpen := true, queue := [1], flush_flag := false,
    discard_until := 0, session_rate := 8000, read_ptime := 20,
    session_frame_bytes := 320 }

def c6St : ApiState :=
  { sessions := [['a', 'b']], ctxs := [(['a', 'b'], c6Ctx)], teardowns := 0 }

theorem c6_lookup_errors_witness :
    (c6St.sessions.contains (trimUuid ['a', 'b']) = false →
      uuidGeminiFlush c6St ['a', 'b'] = (c6St, .sessionNotFound (trimUuid ['a', 'b'])) ∧
      uuidGeminiStop c6St ['a', 'b'] = (c6St, .sessionNotFound (trimUuid ['a', 'b']))) ∧
    (c6St.sessions.contains (trimUuid ['a', 'b']) = true →
      c6St.ctxs.lookup (trimUuid ['a', 'b']) = none →
      uuidGeminiFlush c6St ['a', 'b'] = (c6St, .notActive (trimUuid ['a', 'b'])) ∧
      uuidGeminiStop c6St ['a', 'b'] = (c6St, .notActive (trimUuid ['a', 'b']))) ∧
    (c6St.sessions.contains (trimUuid ['a', 'b']) = true →
      ∀ c, c6St.ctxs.lookup (trimUuid ['a', 'b']) = some c →
      uuidGeminiStop c6St ['a', 'b']
        = ({ c6St with ctxs := c6St.ctxs.filter (fun p => !(p.1 == trimUuid ['a', 'b'])),
                       teardowns := c6St.teardowns + 1 }, .ok) ∧
      uuidGeminiStop (uuidGeminiStop c6St ['a', 'b']).1 ['a', 'b']
        = ((uuidGeminiStop c6St ['a', 'b']).1, .notActive (trimUuid ['a', 'b']))) :=
  c6_lookup_errors c6St ['a', 'b'] (by decide)

theorem geminiLiveStart_registered_imp (e : StartEnv) :
    (geminiLiveStart e).registered = true → startAllOk e := by
  unfold geminiLiveStart startAllOk
  by_cases h1 : e.dataEmpty = true
  · rw [if_pos h1]; intro hreg; exact absurd hreg (by simp [startInit, startR1, startR2, startR3, startR4, startR5, startR6, errorCleanup])
  rw [if_neg h1]
  by_cases h2 : e.argc ≠ 2
  · rw [if_pos h2]; intro hreg; exact absurd hreg (by simp [startInit, startR1, startR2, startR3, startR4, startR5, startR6, errorCleanup])
  rw [if_neg h2]
  by_cases h3 : e.port ≤ 0 ∨ 65535 < e.port
  · rw [if_pos h3]; intro hreg; exact absurd hreg (by simp [startInit, startR1, startR2, startR3, startR4, startR5, startR6, errorCleanup])
  rw [if_neg h3]
  by_cases h4 : (!e.readImplOk) = true
  · rw [if_pos h4]; intro hreg; exact absurd hreg (by simp [startInit, startR1, startR2, startR3, startR4, startR5, startR6, errorCleanup])
  rw [if_neg h4]
  by_cases h5 : (!e.mutexOk) = true
  · rw [if_pos h5]; intro hreg; exact absurd hreg (by simp [startInit, startR1, startR2, startR3, startR4, startR5, startR6, errorCleanup])
  rw [if_neg h5]
  by_cases h6 : (!e.queueOk) = true
  · rw [if_pos h6]; intro hreg; exact absurd hreg (by simp [startInit, startR1, startR2, startR3, startR4, startR5, startR6, errorCleanup])
  rw [if_neg h6]
  by_cases h7 : e.sessionRate ≠ GEMINI_INPUT_RATE ∧ (!e.readResamplerOk) = true
  · rw [if_pos h7]; intro hreg; exact absurd hreg (by simp [startInit, startR1, startR2, startR3, startR4, startR5, startR6, errorCleanup])
  rw [if_neg h7]
  by_cases h8 : e.sessionRate ≠ GEMINI_OUTPUT_RATE ∧ (!e.writeResamplerOk) = true
  · rw [if_pos h8]; intro hreg; exact absurd hreg (by simp [startInit, startR1, startR2, startR3, startR4, startR5, startR6, errorCleanup])
  rw [if_neg h8]
  by_cases h9 : (!e.sockaddrOk) = true
  · rw [if_pos h9]; intro hreg; exact absurd hreg (by simp [startInit, startR1, startR2, startR3, startR4, startR5, startR6, errorCleanup])
  rw [if_neg h9]
  by_cases h10 : (!e.socketOk) = true
  · rw [if_pos h10]; intro hreg; exact absurd hreg (by simp [startInit, startR1, startR2, startR3, startR4, startR5, startR6, errorCleanup])
  rw [if_neg h10]
  by_cases h11 : (!e.connectOk) = true
  · rw [if_pos h11]; intro hreg; exact absurd hreg (by simp [startInit, startR1, startR2, startR3, startR4, startR5, startR6, errorCleanup])
  rw [if_neg h11]
  by_cases h12 : (!e.codecOk) = true
  · rw [if_pos h12]; intro hreg; exact absurd hreg (by simp [startInit, startR1, startR2, startR3, startR4, startR5, startR6, errorCleanup])
  rw [if_neg h12]
  by_cases h13 : (!e.threadOk) = true
  · rw [if_pos h13]; intro hreg; exact absurd hreg (by simp [startInit, startR1, startR2, startR3, startR4, startR5, startR6, errorCleanup])
  rw [if_neg h13]
  by_cases h14 : (!e.bugOk) = true
  · rw [if_pos h14]; intro hreg; exact absurd hreg (by simp [startInit, startR1, startR2, startR3, startR4, startR5, startR6, errorCleanup])
  rw [if_neg h14]
  intro hreg
  refine ⟨?_, ?_, ?_, ?_, ?_, ?_, ?_, ?_, ?_, ?_, ?_, ?_, ?_, ?_, ?_⟩
  · simpa using h1
  · simpa using h2
  · omega
  · omega
  · simpa using h4
  · simpa using h5
  · simpa using h6
  · intro hne
    simpa using not_and.mp h7 hne
  · intro hne
    simpa using not_and.mp h8 hne
  · simpa using h9
  · simpa using h10
  · simpa using h11
  · simpa using h12
  · simpa using h13
  · simpa using h14

/-- C9: the relay context is registered on the channel only as the final
step of a fully successful start — if any earlier start step fails, the
start returns unregistered, and a flush or stop against a session with no
registered context returns the "Gemini not active" error. -/
theorem c9_registration_only_on_success (e : StartEnv) (he : ¬ startAllOk e)
    (st : ApiState) (cmd : List Char) (hne : cmd.isEmpty = false)
    (hs : st.sessions.contains (trimUuid cmd) = true)
    (hc : st.ctxs.lookup (trimUuid cmd) = none) :
    (geminiLiveStart e).registered = false ∧
    uuidGeminiFlush st cmd = (st, .notActive (trimUuid cmd)) ∧
    uuidGeminiStop st cmd = (st, .notActive (trimUuid cmd)) := by
  refine ⟨?_, ?_, ?_⟩
  · rcases hb : (geminiLiveStart e).registered with _ | _
    · rfl
    · exact absurd (geminiLiveStart_registered_imp e hb) he
  · unfold uuidGeminiFlush
    simp only [hne, Bool.false_eq_true, if_false, hs, if_true, hc]
  · unfold uuidGeminiStop
    simp only [hne, Bool.false_eq_true, if_false, hs, if_true, hc]

def c9Env : StartEnv :=
  { dataEmpty := false, argc := 2, port := 9000, readImplOk := true,
    sessionRate := 8000, ptimeMs := 20, mutexOk := true, queueOk := true,
    readResamplerOk := true, writeResamplerOk := true, sockaddrOk := true,
    socketOk := true, connectOk := false, codecOk := true, threadOk := true,
    bugOk := true }

def c9St : ApiState :=
  { sessions := [['a', 'b']], ctxs := [], teardowns := 0 }

theorem c9_registration_only_on_success_witness :
    (geminiLiveStart c9Env).registered = false ∧
    uuidGeminiFlush c9St ['a', 'b'] = (c9St, .notActive (trimUuid ['a', 'b'])) ∧
    uuidGeminiStop c9St ['a', 'b'] = (c9St, .notActive (trimUuid ['a', 'b'])) :=
  c9_registration_only_on_success c9Env (by decide) c9St ['a', 'b']
    (by decide) (by decide) (by decide)

def c5EnvReadRes : StartEnv :=
  { dataEmpty := false, argc := 2, port := 9000, readImplOk := true,
    sessionRate := 8000, ptimeMs := 20, mutexOk := true, queueOk := true,
    readResamplerOk := false, writeResamplerOk := true, sockaddrOk := true,
    socketOk := true, connectOk := true, codecOk := true, threadOk := true,
    bugOk := true }

def c5EnvWriteRes : StartEnv :=
  { c5EnvReadRes with readResamplerOk := true, writeResamplerOk := false }

def c5EnvConnect : StartEnv :=
  { c5EnvReadRes with readResamplerOk := true, connectOk := false }

/-- C5 (code bug): the start sequence does NOT always fail closed.  At a
session rate of 8000 Hz, a read-resampler creation failure returns with the
audio queue still allocated (plain `return` instead of `goto error`,
`mod_gemini_live.c:452-461`); a write-resampler creation failure destroys
the read resampler but likewise returns with the audio queue still
allocated (`c:470-482`).  Failures that go through the `error:` label (for
example a connect failure) do release everything, which is what the claim
and the spec promise for every failure point. -/
theorem c5_start_not_fail_closed :
    (geminiLiveStart c5EnvReadRes).registered = false ∧
    (geminiLiveStart c5EnvReadRes).queueAlloc = true ∧
    (geminiLiveStart c5EnvReadRes).readResamplerAlloc = false ∧
    (geminiLiveStart c5EnvWriteRes).registered = false ∧
    (geminiLiveStart c5EnvWriteRes).queueAlloc = true ∧
    (geminiLiveStart c5EnvWriteRes).readResamplerAlloc = false ∧
    (geminiLiveStart c5EnvWriteRes).writeResamplerAlloc = false ∧
    (geminiLiveStart c5EnvConnect) = startInit := by decide
